import Mathlib

/-!
Formal model of the ward-patient tracking application (src/app.py).

The application stores three entities in SQLite - patients, orders and
ward-round notes - and derives dashboard statistics from them with pandas.
We embed the rows as Lean structures, the SQL statements and pandas masks as
pure functions on lists of rows, and prove the stated properties about them.

Dates are stored in the database as ISO `YYYY-MM-DD` strings; the helper
`_to_date` (app.py:332-337) parses them with `datetime.strptime` and returns
`None` on empty input or parse failure.  We model a parsed calendar date as a
year/month/day triple, Python date comparison as lexicographic comparison of
the triple, and `timedelta.days` subtraction via a proleptic-Gregorian day
ordinal.
-/

namespace WardTracker

/-- A calendar date: year, month, day, as produced by `datetime.date`. -/
structure Date where
  y : Nat
  m : Nat
  d : Nat
deriving DecidableEq, Repr

/-- Python `date` comparison: lexicographic on (year, month, day). -/
def Date.leb (a b : Date) : Bool :=
  a.y < b.y || (a.y == b.y && (a.m < b.m || (a.m == b.m && a.d ≤ b.d)))

/-- Gregorian leap-year rule used by `datetime` for day validation. -/
def isLeap (y : Nat) : Bool :=
  (y % 4 == 0 && y % 100 != 0) || (y % 400 == 0)

/-- Number of days in a month of a given year, as validated by `datetime.date`. -/
def daysInMonth (y m : Nat) : Nat :=
  if m == 2 then (if isLeap y then 29 else 28)
  else if m == 4 || m == 6 || m == 9 || m == 11 then 30
  else 31

/-- Day ordinal of a date in the proleptic Gregorian calendar (days since
0000-03-01, civil-calendar algorithm).  Differences of ordinals of valid dates
equal Python `(d2 - d1).days`.  Valid for years at least 1. -/
def Date.toOrdinal (dt : Date) : Nat :=
  let y := if dt.m ≤ 2 then dt.y - 1 else dt.y
  let era := y / 400
  let yoe := y % 400
  let mp := (dt.m + 9) % 12
  let doy := (153 * mp + 2) / 5 + dt.d - 1
  let doe := yoe * 365 + yoe / 4 - yoe / 100 + doy
  era * 146097 + doe

/-- Python `(d2 - d1).days`: signed day difference of two dates. -/
def daysDiff (d1 d2 : Date) : Int :=
  (d2.toOrdinal : Int) - (d1.toOrdinal : Int)

/-- Python `max` of two dates (returns the first argument on ties). -/
def maxD (a b : Date) : Date := if Date.leb a b then b else a

/-- Python `min` of two dates (returns the first argument on ties). -/
def minD (a b : Date) : Date := if Date.leb a b then a else b

/-- Character is an ASCII decimal digit. -/
def isDigitCh (c : Char) : Bool := 48 ≤ c.toNat && c.toNat ≤ 57

/-- Numeric value of a digit string. -/
def digitsToNat (cs : List Char) : Nat :=
  cs.foldl (fun a c => a * 10 + (c.toNat - 48)) 0

/-- A month or day field of a `%Y-%m-%d` pattern: nonempty, all digits, at
most `w` characters (strptime accepts unpadded `%m` and `%d` fields). -/
def fieldOk (cs : List Char) (w : Nat) : Bool :=
  cs.length != 0 && cs.length ≤ w && cs.all isDigitCh

/-- The year field of a `%Y-%m-%d` pattern: CPython strptime matches `%Y`
in this format only as exactly four digits, so strings like `24-03-15` or
`999-01-01` fail to parse. -/
def yearFieldOk (cs : List Char) : Bool :=
  cs.length == 4 && cs.all isDigitCh

/-- Split a character list at every dash, keeping empty pieces, exactly like
Python `s.split("-")`. -/
def splitDashAux : List Char → List Char → List (List Char)
  | [], acc => [acc.reverse]
  | c :: rest, acc =>
    if c = '-' then acc.reverse :: splitDashAux rest []
    else splitDashAux rest (c :: acc)

/-- Split a string at dashes. -/
def splitDash (s : String) : List (List Char) :=
  splitDashAux s.data []

/-- Model of `datetime.strptime(s, "%Y-%m-%d").date()` wrapped in try/except:
three dash-separated numeric fields forming a valid calendar date, `none`
otherwise (app.py:332-337). -/
def parseDate (s : String) : Option Date :=
  match splitDash s with
  | [ys, ms, ds] =>
    if yearFieldOk ys && fieldOk ms 2 && fieldOk ds 2 then
      let y := digitsToNat ys
      let m := digitsToNat ms
      let d := digitsToNat ds
      if 1 ≤ y && 1 ≤ m && m ≤ 12 && 1 ≤ d && d ≤ daysInMonth y m then
        some ⟨y, m, d⟩
      else none
    else none
  | _ => none

/-- `_to_date` (app.py:332-337): `None`/empty input gives `None`, otherwise
parse, with parse failures mapped to `None`. -/
def toDateOpt (s : Option String) : Option Date :=
  match s with
  | none => none
  | some str => if str = "" then none else parseDate str

/-- A row of the `patients` table (schema at app.py:82-100).  SQLite INTEGER
flags `active`, `surgery_needed`, `operated` are written as 0/1 by the
application and are modelled as `Bool`. -/
structure PatientRow where
  id : Nat
  medical_id : Option String
  name : String
  dob : Option String
  ward : String
  bed : String
  admission_date : Option String
  discharge_date : Option String
  severity : Option Int
  surgery_needed : Bool
  planned_treatment_days : Option Int
  meds : String
  notes : String
  active : Bool
  diagnosis : String
  operated : Bool
deriving DecidableEq, Repr

/-- Fields supplied to `add_patient` by the admission form (app.py:1428-1442).
The INSERT at app.py:161-180 hard-codes `active = 1` and omits
`discharge_date`, which therefore defaults to NULL. -/
structure AddFields where
  medical_id : Option String
  name : String
  dob : Option String
  ward : String
  bed : String
  admission_date : Option String
  severity : Option Int
  surgery_needed : Bool
  planned_treatment_days : Option Int
  meds : String
  notes : String
  diagnosis : String
  operated : Bool
deriving DecidableEq, Repr

/-- `add_patient` (app.py:158-182): INSERT a new row with `active = 1` and no
`discharge_date` column, so the new row has `discharge_date = NULL`.  `newId`
stands for the AUTOINCREMENT `lastrowid`. -/
def add_patient (newId : Nat) (f : AddFields) (db : List PatientRow) : List PatientRow :=
  db ++ [{ id := newId
           medical_id := f.medical_id
           name := f.name
           dob := f.dob
           ward := f.ward
           bed := f.bed
           admission_date := f.admission_date
           discharge_date := none
           severity := f.severity
           surgery_needed := f.surgery_needed
           planned_treatment_days := f.planned_treatment_days
           meds := f.meds
           notes := f.notes
           active := true
           diagnosis := f.diagnosis
           operated := f.operated }]

/-- Effect of `discharge_patient` on one matching row (app.py:211-213):
`UPDATE patients SET discharge_date=?, active=0 WHERE id=?` with today
formatted as `YYYY-MM-DD`. -/
def discharge_row (today : String) (p : PatientRow) : PatientRow :=
  { p with discharge_date := some today, active := false }

/-- `discharge_patient` (app.py:211-213) over the whole table. -/
def discharge_patient (today : String) (pid : Nat) (db : List PatientRow) : List PatientRow :=
  db.map (fun p => if p.id == pid then discharge_row today p else p)

/-- Effect of `undo_discharge` on one matching row (app.py:215-216):
`UPDATE patients SET discharge_date=NULL, active=1 WHERE id=?`. -/
def undo_row (p : PatientRow) : PatientRow :=
  { p with discharge_date := none, active := true }

/-- `undo_discharge` (app.py:215-216) over the whole table. -/
def undo_discharge (pid : Nat) (db : List PatientRow) : List PatientRow :=
  db.map (fun p => if p.id == pid then undo_row p else p)

/-- `update_patient_operated` (app.py:184-185):
`UPDATE patients SET operated=? WHERE id=?`. -/
def update_patient_operated (pid : Nat) (b : Bool) (db : List PatientRow) : List PatientRow :=
  db.map (fun p => if p.id == pid then { p with operated := b } else p)

/-- Fields written by the full patient-edit form submit (app.py:1318-1340). -/
structure EditFields where
  medical_id : Option String
  name : String
  ward : String
  bed : String
  admission_date : String
  discharge_date : Option String
  surgery_needed : Bool
  operated : Bool
  diagnosis : String
  notes : String
deriving DecidableEq, Repr

/-- Effect of the `form_edit_patient_full` submit on one matching row
(app.py:1318-1340).  The UPDATE sets medical_id, name, ward, bed,
admission_date, discharge_date, surgery_needed, operated, diagnosis and notes;
it does NOT touch the `active` column (nor dob, severity, meds, or
planned_treatment_days). -/
def edit_row (e : EditFields) (p : PatientRow) : PatientRow :=
  { p with medical_id := e.medical_id
           name := e.name
           ward := e.ward
           bed := e.bed
           admission_date := some e.admission_date
           discharge_date := e.discharge_date
           surgery_needed := e.surgery_needed
           operated := e.operated
           diagnosis := e.diagnosis
           notes := e.notes }

/-- The edit-form UPDATE (app.py:1318-1340) over the whole table. -/
def edit_patient_full (e : EditFields) (pid : Nat) (db : List PatientRow) : List PatientRow :=
  db.map (fun p => if p.id == pid then edit_row e p else p)

/-- The §3 invariant of the spec: `active = true` iff `discharge_date is null`,
as a boolean on one patient row. -/
def patientInv (p : PatientRow) : Bool :=
  p.active == p.discharge_date.isNone

/-- A row of the `orders` table (schema at app.py:101-113). -/
structure OrderRow where
  id : Nat
  patient_id : Nat
  order_type : String
  description : String
  date_ordered : Option String
  scheduled_date : Option String
  status : String
  result : Option String
  result_date : Option String
deriving DecidableEq, Repr

/-- `mark_order_done` on one matching row (app.py:207-209):
`UPDATE orders SET status=done, result=?, result_date=? WHERE id=?`. -/
def mark_done_row (today : String) (res : Option String) (o : OrderRow) : OrderRow :=
  { o with status := "done", result := res, result_date := some today }

/-- `mark_order_done` (app.py:207-209) over the whole orders table.  It issues
a single UPDATE on `orders` and never touches the `patients` table. -/
def mark_order_done (today : String) (oid : Nat) (res : Option String)
    (orders : List OrderRow) : List OrderRow :=
  orders.map (fun o => if o.id == oid then mark_done_row today res o else o)

/-- A row of the `ward_rounds` table (schema at app.py:114-126). -/
structure RoundRow where
  id : Nat
  patient_id : Nat
  visit_date : String
  general_status : String
  system_exam : String
  plan : String
  extra_tests : String
  extra_tests_note : String
  created_at : String
deriving DecidableEq, Repr

/-- `patients_active_between` (app.py:345-352): pandas mask
`ad.notna() & (ad <= dend) & (dd.isna() | (dd >= dstart))` where
`ad`/`dd` are `_to_date` of the stored strings.  Pandas object-dtype
comparisons treat missing values as `False`, so rows whose admission date does
not parse are excluded by the mask exactly as by `notna()`. -/
def patients_active_between (dstart dend : Date) (db : List PatientRow) : List PatientRow :=
  db.filter (fun p =>
    match toDateOpt p.admission_date with
    | none => false
    | some ad =>
      Date.leb ad dend &&
        (match toDateOpt p.discharge_date with
         | none => true
         | some dd => Date.leb dstart dd))

/-- `count_discharges_between` (app.py:354-358): rows with a non-null
discharge date whose parsed value lies in `[dstart, dend]`.  (Unparseable
non-null strings give a missing value, compared as `False` by pandas.) -/
def count_discharges_between (dstart dend : Date) (db : List PatientRow) : Nat :=
  (db.filter (fun p =>
    match p.discharge_date with
    | none => false
    | some s =>
      match toDateOpt (some s) with
      | none => false
      | some dd => Date.leb dstart dd && Date.leb dd dend)).length

/-- `count_orders_between` (app.py:360-364): orders whose parsed scheduled
date lies in `[dstart, dend]`. -/
def count_orders_between (dstart dend : Date) (orders : List OrderRow) : Nat :=
  (orders.filter (fun o =>
    match toDateOpt o.scheduled_date with
    | none => false
    | some sd => Date.leb dstart sd && Date.leb sd dend)).length

/-- Round-half-to-even on a rational, modelling Python `round(x)` at the
rational level. -/
def roundHalfEven (q : ℚ) : Int :=
  let n := ⌊q⌋
  let r := q - (n : ℚ)
  if r < 1/2 then n
  else if 1/2 < r then n + 1
  else if n % 2 = 0 then n else n + 1

/-- Python `round(x, 1)` modelled exactly on rationals: round `10*x` half to
even and divide by 10. -/
def round1 (q : ℚ) : ℚ :=
  (roundHalfEven (q * 10) : ℚ) / 10

/-- Arithmetic mean of a list of integers as a rational (pandas `Series.mean`
on integer data). -/
def meanInt (l : List Int) : ℚ :=
  ((l.foldr (· + ·) 0 : Int) : ℚ) / (l.length : ℚ)

/-- The per-row `overlap_days` closure inside `avg_days_treated_in_week`
(app.py:369-372):
`start = max(ad or dstart, dstart)`, `end = min(dd or dend, dend)`,
`max(0, (end - start).days + 1)`. -/
def overlap_days (dstart dend : Date) (ad dd : Option Date) : Int :=
  let s := maxD (ad.getD dstart) dstart
  let e := minD (dd.getD dend) dend
  max 0 (daysDiff s e + 1)

/-- `avg_days_treated_in_week` (app.py:366-374): mean of `overlap_days` over
`patients_active_between`, rounded to one decimal; `0.0` when the filtered
set is empty. -/
def avg_days_treated_in_week (dstart dend : Date) (db : List PatientRow) : ℚ :=
  let df := patients_active_between dstart dend db
  if df = [] then 0
  else round1 (meanInt (df.map (fun r =>
    overlap_days dstart dend (toDateOpt r.admission_date) (toDateOpt r.discharge_date))))

/-- Largest id in the ward-round group of one patient:
`SELECT MAX(id) FROM ward_rounds GROUP BY patient_id` for that patient
(app.py:387-391). -/
def maxIdFor (rounds : List RoundRow) (pid : Nat) : Nat :=
  ((rounds.filter (fun w => w.patient_id == pid)).map (fun w => w.id)).foldr Nat.max 0

/-- `latest_plan_map_all_patients` (app.py:379-397): the SQL joins each
ward-round row whose id equals its patient group MAX(id) and the Python loop
builds `patient_id -> plan` (with `plan or ""`, the identity on strings once
NULL plans are read back as empty).  One association-list entry per distinct
patient id occurring in `ward_rounds`. -/
def latest_plan_map_all_patients (rounds : List RoundRow) : List (Nat × String) :=
  ((rounds.map (fun w => w.patient_id)).dedup).filterMap (fun pid =>
    (rounds.find? (fun w => w.id == maxIdFor rounds pid)).map (fun w => (w.patient_id, w.plan)))

/-- Python dict lookup over the association list produced above. -/
def planLookup (l : List (Nat × String)) (k : Nat) : Option String :=
  (l.find? (fun e => e.1 == k)).map (fun e => e.2)

/-- Python string comparison `a <= b`: lexicographic on code points, as used
by the pandas mask `scheduled_date <= today_str` (app.py:453). -/
def strLeChars : List Char → List Char → Bool
  | [], _ => true
  | _ :: _, [] => false
  | a :: as, b :: bs =>
    if a.toNat < b.toNat then true
    else if b.toNat < a.toNat then false
    else strLeChars as bs

/-- Python string comparison on `String`. -/
def strLe (a b : String) : Bool := strLeChars a.data b.data

/-- The overdue-order count `scheduled_not_done` in `dashboard_stats`
(app.py:450-454): orders with status different from `done`, a non-null
scheduled date, and `scheduled_date <= today_str` as strings. -/
def scheduled_not_done (todayStr : String) (orders : List OrderRow) : Nat :=
  (orders.filter (fun o =>
    o.status != "done" &&
      (match o.scheduled_date with
       | none => false
       | some s => strLe s todayStr))).length

/-- Occurrence counts grouped by key (`df.groupby(k).size()`), one entry per
distinct key. -/
def groupCount (keys : List String) : List (String × Nat) :=
  keys.dedup.map (fun k => (k, keys.count k))

/-- The `patients_per_ward` table of `dashboard_stats` (app.py:435-438):
group the active rows by ward and count, or an empty table when there are no
rows.  (The descending sort only reorders entries and is omitted; the claims
concern the mapping, and the empty case in particular.) -/
def patients_per_ward (rows : List PatientRow) : List (String × Nat) :=
  if rows.length > 0 then groupCount (rows.map (fun p => p.ward)) else []

/-- `days_between` (app.py:226-231) under `d2 = None`: days from the parsed
date to today; `None` for missing input. -/
def days_between_today (today : Date) (s : Option String) : Option Int :=
  (toDateOpt s).map (fun d => daysDiff d today)

/-- The `avg_days` statistic of `dashboard_stats` (app.py:439-444): mean of
days-in-hospital over the active rows rounded to one decimal when the set is
nonempty, and the integer `0` otherwise.  (pandas `mean` skips missing
values, hence the `filterMap`.) -/
def dashboard_avg_days (today : Date) (rows : List PatientRow) : ℚ :=
  if rows.length > 0 then
    round1 (meanInt (rows.filterMap (fun p => days_between_today today p.admission_date)))
  else 0

/-- The order-status histogram of `orders_status_chart` (app.py:486-489):
`df_orders.groupby("status").size()`.  On an empty orders table the function
returns before building the histogram, which is the empty mapping. -/
def orders_status_hist (orders : List OrderRow) : List (String × Nat) :=
  groupCount (orders.map (fun o => o.status))

/-- Date-of-birth resolution in the admission form submit (app.py:1416-1423):
a detailed birth date wins; else an age converts to January 1 of
`max(1900, min(today_year, today_year - age))`; else January 1 of the
year field.  `dob_date`/`dob_age` are `None` unless their checkbox was
ticked, matching the Python truthiness tests. -/
def resolve_dob (todayYear : Int) (useDetail : Bool) (dobDate : Option Date)
    (useAge : Bool) (dobAge : Option Int) (dobYear : Nat) : Date :=
  match useDetail, dobDate with
  | true, some d => d
  | _, _ =>
    match useAge, dobAge with
    | true, some a => ⟨(max 1900 (min todayYear (todayYear - a))).toNat, 1, 1⟩
    | _, _ => ⟨dobYear, 1, 1⟩

/-- One observable step of a Streamlit button/form handler, for the cache
discipline around `query_df` (`@st.cache_data(ttl=30)`, app.py:218-221):
a store mutation, an explicit `st.cache_data.clear()`, or a read through
`query_df` (every rerun immediately re-reads). -/
inductive Action where
  | mutate
  | clearCache
  | readQuery
deriving DecidableEq, Repr

/-- A handler trace is cache-safe when no read occurs while a mutation has
not yet been followed by a cache invalidation.  `dirty` carries whether an
uninvalidated mutation is pending. -/
def cacheSafe : List Action → Bool → Bool
  | [], _ => true
  | Action.mutate :: rest, _ => cacheSafe rest true
  | Action.clearCache :: rest, _ => cacheSafe rest false
  | Action.readQuery :: rest, dirty => !dirty && cacheSafe rest dirty

/-- Home-page discharge button (app.py:552-553): `discharge_patient(...)`
then `safe_rerun()` with no `st.cache_data.clear()`; the rerun re-executes
the page, whose first statements call `query_df`. -/
def home_discharge_handler : List Action :=
  [Action.mutate, Action.readQuery]

/-- Mark-order-done button (app.py:959-963): `mark_order_done(...)`,
`st.cache_data.clear()`, `safe_rerun()`. -/
def mark_order_done_handler : List Action :=
  [Action.mutate, Action.clearCache, Action.readQuery]

/-- Ward-round save (app.py:653-684): `update_patient_operated`,
`add_ward_round`, one `add_order` per selected test, then
`st.cache_data.clear()` and `safe_rerun()`. -/
def ward_round_save_handler (numExtraOrders : Nat) : List Action :=
  Action.mutate :: Action.mutate ::
    (List.replicate numExtraOrders Action.mutate ++ [Action.clearCache, Action.readQuery])

/-- Admission form submit (app.py:1443-1465): `add_patient`, one `add_order`
per quick-pick test, `st.cache_data.clear()`, `safe_rerun()`. -/
def add_patient_handler (numOrders : Nat) : List Action :=
  Action.mutate ::
    (List.replicate numOrders Action.mutate ++ [Action.clearCache, Action.readQuery])

/-- Undo-discharge button on the discharge page (app.py:1037-1042):
`undo_discharge`, `st.cache_data.clear()`, `safe_rerun()`. -/
def undo_discharge_handler : List Action :=
  [Action.mutate, Action.clearCache, Action.readQuery]

/-- Search-page delete button (app.py:1209-1213): DELETE, clear, rerun. -/
def delete_patient_handler : List Action :=
  [Action.mutate, Action.clearCache, Action.readQuery]

/-- Search-page discharge button (app.py:1214-1218): discharge, clear,
rerun. -/
def search_discharge_handler : List Action :=
  [Action.mutate, Action.clearCache, Action.readQuery]

/-- Edit-form save (app.py:1315-1342): UPDATE then `st.cache_data.clear()`
(no rerun; the next read happens on the following interaction). -/
def edit_save_handler : List Action :=
  [Action.mutate, Action.clearCache]

/-! Concrete sample data used by counterexamples and witnesses. -/

/-- Admission-form fields of a sample patient. -/
def fSample : AddFields :=
  { medical_id := some "BN001", name := "Nguyen A", dob := some "1975-02-10",
    ward := "304", bed := "01", admission_date := some "2024-01-05",
    severity := none, surgery_needed := false, planned_treatment_days := some 7,
    meds := "", notes := "", diagnosis := "", operated := false }

/-- Edit-form submission that gives the sample patient a discharge date. -/
def eSample : EditFields :=
  { medical_id := some "BN001", name := "Nguyen A", ward := "304", bed := "01",
    admission_date := "2024-01-05", discharge_date := some "2024-01-09",
    surgery_needed := false, operated := false, diagnosis := "", notes := "" }

/-- A one-patient table produced by admitting the sample patient. -/
def dbSample : List PatientRow := add_patient 1 fSample []

/-- Patient row of the spec worked example: admitted 2024-01-10, discharged
2024-01-20. -/
def pC2 : PatientRow :=
  { id := 2, medical_id := some "BN002", name := "Tran B", dob := none,
    ward := "305", bed := "02",
    admission_date := some "2024-01-10", discharge_date := some "2024-01-20",
    severity := none, surgery_needed := false, planned_treatment_days := none,
    meds := "", notes := "", active := false, diagnosis := "", operated := false }

/-- C4: `discharge_patient` sets the matching row discharge date to the given
day string and clears the active flag, `undo_discharge` nulls the discharge
date and sets the active flag; neither checks the prior state, and repeating
a discharge merely resets the date. -/
theorem C4_discharge_undo_semantics :
    (∀ t pid db p, p ∈ discharge_patient t pid db → p.id = pid →
        p.discharge_date = some t ∧ p.active = false) ∧
    (∀ pid db p, p ∈ undo_discharge pid db → p.id = pid →
        p.discharge_date = none ∧ p.active = true) ∧
    (∀ t pid db q, q ∈ db → q.id = pid → discharge_row t q ∈ discharge_patient t pid db) ∧
    (∀ pid db q, q ∈ db → q.id = pid → undo_row q ∈ undo_discharge pid db) ∧
    (∀ t1 t2 q, discharge_row t2 (discharge_row t1 q) = discharge_row t2 q) ∧
    (∀ t q, undo_row (discharge_row t q) = undo_row q ∧
        discharge_row t (undo_row q) = discharge_row t q) := by
  refine ⟨?_, ?_, ?_, ?_, ?_, ?_⟩
  · intro t pid db p hp hid
    rcases List.mem_map.1 hp with ⟨q, hq, hfq⟩
    by_cases hqe : q.id = pid
    · simp only [hqe, beq_self_eq_true, if_true] at hfq
      subst hfq
      exact ⟨rfl, rfl⟩
    · simp only [beq_iff_eq, hqe, if_false] at hfq
      subst hfq
      exact absurd hid hqe
  · intro pid db p hp hid
    rcases List.mem_map.1 hp with ⟨q, hq, hfq⟩
    by_cases hqe : q.id = pid
    · simp only [hqe, beq_self_eq_true, if_true] at hfq
      subst hfq
      exact ⟨rfl, rfl⟩
    · simp only [beq_iff_eq, hqe, if_false] at hfq
      subst hfq
      exact absurd hid hqe
  · intro t pid db q hq hid
    exact List.mem_map.2 ⟨q, hq, by simp [hid]⟩
  · intro pid db q hq hid
    exact List.mem_map.2 ⟨q, hq, by simp [hid]⟩
  · intro t1 t2 q
    simp [discharge_row]
  · intro t q
    exact ⟨rfl, rfl⟩

/-- C4 witness: the semantics applied to a concrete one-row table. -/
theorem C4_witness :
    (discharge_row "2024-02-01" pC2).discharge_date = some "2024-02-01" ∧
      (discharge_row "2024-02-01" pC2).active = false := by
  exact C4_discharge_undo_semantics.1 "2024-02-01" 2 [pC2]
    (discharge_row "2024-02-01" pC2) (by decide) (by decide)

/-- C1 counterexample: a freshly admitted patient satisfies the invariant, but
submitting the edit form with a discharge date set produces a row with a
non-null discharge date and `active` still true, because the edit UPDATE
(app.py:1318-1340) never writes the `active` column. -/
theorem C1_counterexample :
    (add_patient 1 fSample []).all patientInv = true ∧
    (edit_patient_full eSample 1 (add_patient 1 fSample [])).all patientInv = false := by
  decide

/-- C1 amended: the invariant `active = true` iff `discharge_date is null` is
established by admission and preserved by discharge, undo-discharge and the
operated-flag update of a ward-round save (order completion only touches the
`orders` table); the patient-edit operation instead writes `discharge_date`
while leaving `active` unchanged, so after an edit the invariant holds exactly
when the submitted discharge value agrees with the row existing active flag. -/
theorem C1_amended_invariant :
    (∀ nid f db, (∀ p ∈ db, patientInv p = true) →
        ∀ p ∈ add_patient nid f db, patientInv p = true) ∧
    (∀ t pid db, (∀ p ∈ db, patientInv p = true) →
        ∀ p ∈ discharge_patient t pid db, patientInv p = true) ∧
    (∀ pid db, (∀ p ∈ db, patientInv p = true) →
        ∀ p ∈ undo_discharge pid db, patientInv p = true) ∧
    (∀ pid b db, (∀ p ∈ db, patientInv p = true) →
        ∀ p ∈ update_patient_operated pid b db, patientInv p = true) ∧
    (∀ e q, (edit_row e q).active = q.active ∧
        (edit_row e q).discharge_date = e.discharge_date ∧
        (patientInv (edit_row e q) = true ↔ q.active = e.discharge_date.isNone)) := by
  refine ⟨?_, ?_, ?_, ?_, ?_⟩
  · intro nid f db hall p hp
    rcases List.mem_append.1 hp with h | h
    · exact hall p h
    · rcases List.mem_singleton.1 h with rfl
      rfl
  · intro t pid db hall p hp
    rcases List.mem_map.1 hp with ⟨q, hq, hfq⟩
    by_cases hqe : q.id = pid
    · simp only [hqe, beq_self_eq_true, if_true] at hfq
      subst hfq
      rfl
    · simp only [beq_iff_eq, hqe, if_false] at hfq
      subst hfq
      exact hall q hq
  · intro pid db hall p hp
    rcases List.mem_map.1 hp with ⟨q, hq, hfq⟩
    by_cases hqe : q.id = pid
    · simp only [hqe, beq_self_eq_true, if_true] at hfq
      subst hfq
      rfl
    · simp only [beq_iff_eq, hqe, if_false] at hfq
      subst hfq
      exact hall q hq
  · intro pid b db hall p hp
    rcases List.mem_map.1 hp with ⟨q, hq, hfq⟩
    by_cases hqe : q.id = pid
    · simp only [hqe, beq_self_eq_true, if_true] at hfq
      subst hfq
      simpa [patientInv] using hall q hq
    · simp only [beq_iff_eq, hqe, if_false] at hfq
      subst hfq
      exact hall q hq
  · intro e q
    refine ⟨rfl, rfl, ?_⟩
    simp [patientInv, edit_row, beq_iff_eq]

/-- C1 amended witness: preservation through a concrete discharge. -/
theorem C1_amended_witness :
    patientInv (discharge_row "2024-02-01" pC2) = true := by
  exact C1_amended_invariant.2.1 "2024-02-01" 2 [pC2] (by decide)
    (discharge_row "2024-02-01" pC2) (by decide)

/-- Helper for the handler traces that insert a variable number of orders:
the trailing clear-then-read tail is cache-safe after any run of mutations. -/
theorem cacheSafe_replicate_mutate (n : Nat) (b : Bool) :
    cacheSafe (List.replicate n Action.mutate ++ [Action.clearCache, Action.readQuery]) b
      = true := by
  induction n generalizing b with
  | zero => rfl
  | succ k ih =>
    simpa [List.replicate_succ, cacheSafe] using ih true

/-- C5: the home-page discharge button mutates the store and reruns without
`st.cache_data.clear()` (app.py:552-553), so the rerun reads through the warm
`query_df` cache; every other mutating handler clears the cache before its
next read. -/
theorem C5_home_discharge_skips_invalidation :
    cacheSafe home_discharge_handler false = false ∧
    cacheSafe mark_order_done_handler false = true ∧
    cacheSafe undo_discharge_handler false = true ∧
    cacheSafe edit_save_handler false = true ∧
    cacheSafe delete_patient_handler false = true ∧
    cacheSafe search_discharge_handler false = true ∧
    (∀ n, cacheSafe (ward_round_save_handler n) false = true) ∧
    (∀ n, cacheSafe (add_patient_handler n) false = true) := by
  refine ⟨rfl, rfl, rfl, rfl, rfl, rfl, ?_, ?_⟩
  · intro n
    simpa [ward_round_save_handler, cacheSafe] using cacheSafe_replicate_mutate n true
  · intro n
    simpa [add_patient_handler, cacheSafe] using cacheSafe_replicate_mutate n true

/-- C9: the empty-input aggregations return their zero or empty defaults:
average treatment days 0, per-ward counts empty, order-status histogram
empty. -/
theorem C9_empty_aggregates :
    (∀ today, dashboard_avg_days today [] = 0) ∧
    patients_per_ward [] = [] ∧
    orders_status_hist [] = [] := by
  exact ⟨fun _ => rfl, rfl, rfl⟩

/-- Birth-year clamp written exactly as the spec words it: compute
`current_year - age` and clamp the result into `[1900, current_year]`. -/
def clampYearSpec (todayYear age : Int) : Int :=
  min (max (todayYear - age) 1900) todayYear

/-- C7: date-of-birth resolution priority of the admission form: a detailed
date wins; else an age maps to January 1 of the clamped year, which agrees
with the spec clamp into `[1900, current_year]` whenever the current year is
at least 1900; else January 1 of the year field.  Age 30 in 2024 resolves to
1994-01-01 and age 200 clamps to 1900-01-01. -/
theorem C7_dob_resolution :
    (∀ ty d ua oa yr, resolve_dob ty true (some d) ua oa yr = d) ∧
    (∀ ty ud od a yr, (ud = false ∨ od = none) → 1900 ≤ ty →
        resolve_dob ty ud od true (some a) yr = ⟨(clampYearSpec ty a).toNat, 1, 1⟩) ∧
    (∀ ty ud od ua oa yr, (ud = false ∨ od = none) → (ua = false ∨ oa = none) →
        resolve_dob ty ud od ua oa yr = ⟨yr, 1, 1⟩) ∧
    resolve_dob 2024 false none true (some 30) 1980 = ⟨1994, 1, 1⟩ ∧
    resolve_dob 2024 false none true (some 200) 1980 = ⟨1900, 1, 1⟩ := by
  refine ⟨fun ty d ua oa yr => rfl, ?_, ?_, by decide, by decide⟩
  · intro ty ud od a yr h hty
    have hclamp : max 1900 (min ty (ty - a)) = clampYearSpec ty a := by
      unfold clampYearSpec
      omega
    rcases h with rfl | rfl
    · cases od <;> simp [resolve_dob, hclamp]
    · cases ud <;> simp [resolve_dob, hclamp]
  · intro ty ud od ua oa yr h1 h2
    cases ud <;> cases od <;> cases ua <;> cases oa <;> simp_all [resolve_dob]

/-- C7 witness: the age branch applied at age 30 in year 2024. -/
theorem C7_witness :
    resolve_dob 2024 false none true (some 30) 1980 =
      ⟨(clampYearSpec 2024 30).toNat, 1, 1⟩ := by
  exact C7_dob_resolution.2.1 2024 false none 30 1980 (Or.inl rfl) (by norm_num)

/-- C2: a row with a parseable admission date and a well-formed (null or
parseable) discharge date is selected by `patients_active_between` exactly
when `admission <= end` and (`discharge is null` or `discharge >= start`);
the worked example is included for the window 15-25 Jan and excluded for
21-25 Jan and 1-9 Jan. -/
theorem C2_active_between_predicate :
    (∀ ds de db p ad, p ∈ db → toDateOpt p.admission_date = some ad →
        (p.discharge_date = none ∨ (toDateOpt p.discharge_date).isSome = true) →
        (p ∈ patients_active_between ds de db ↔
          (Date.leb ad de = true ∧
            (p.discharge_date = none ∨
              ∃ dd, toDateOpt p.discharge_date = some dd ∧ Date.leb ds dd = true)))) ∧
    patients_active_between ⟨2024, 1, 15⟩ ⟨2024, 1, 25⟩ [pC2] = [pC2] ∧
    patients_active_between ⟨2024, 1, 21⟩ ⟨2024, 1, 25⟩ [pC2] = [] ∧
    patients_active_between ⟨2024, 1, 1⟩ ⟨2024, 1, 9⟩ [pC2] = [] := by
  refine ⟨?_, by decide, by decide, by decide⟩
  intro ds de db p ad hmem had hdd
  simp only [patients_active_between, List.mem_filter, hmem, true_and, had]
  rcases hdd with hnone | hsome
  · rw [hnone]
    simp [toDateOpt]
  · obtain ⟨dd, hdd⟩ := Option.isSome_iff_exists.1 hsome
    have hne : p.discharge_date ≠ none := by
      intro hn
      rw [hn] at hdd
      simp [toDateOpt] at hdd
    rw [hdd]
    simp only [Bool.and_eq_true]
    constructor
    · rintro ⟨h1, h2⟩
      exact ⟨h1, Or.inr ⟨dd, rfl, h2⟩⟩
    · rintro ⟨h1, h2⟩
      refine ⟨h1, ?_⟩
      rcases h2 with h2 | ⟨dd2, hdd2, h3⟩
      · exact absurd h2 hne
      · cases hdd2
        exact h3

/-- C2 witness: membership of the worked example in the overlapping window,
via the predicate characterization. -/
theorem C2_witness :
    pC2 ∈ patients_active_between ⟨2024, 1, 15⟩ ⟨2024, 1, 25⟩ [pC2] := by
  exact (C2_active_between_predicate.1 ⟨2024, 1, 15⟩ ⟨2024, 1, 25⟩ [pC2] pC2 ⟨2024, 1, 10⟩
    (by decide) (by decide) (by decide)).2
    ⟨by decide, Or.inr ⟨⟨2024, 1, 20⟩, by decide, by decide⟩⟩

/-- The per-patient overlap formula exactly as the spec words it:
`max(0, min(discharge_or_end, end) - max(admission, start) + 1)`. -/
def specOverlapDays (dstart dend ad : Date) (dd : Option Date) : Int :=
  max 0 (daysDiff (maxD ad dstart) (minD (dd.getD dend) dend) + 1)

/-- C3: the weekly average is 0 on an empty selection, each selected row has
a parseable admission date and contributes exactly the spec overlap value,
the nonempty result is the 1-decimal rounding of the mean of those values,
and the worked example contributes 11 days for 1-31 Jan and 7 for
12-18 Jan. -/
theorem C3_avg_overlap_days :
    (∀ ds de db, patients_active_between ds de db = [] →
        avg_days_treated_in_week ds de db = 0) ∧
    (∀ ds de db r, r ∈ patients_active_between ds de db →
        ∃ ad, toDateOpt r.admission_date = some ad ∧
          overlap_days ds de (toDateOpt r.admission_date) (toDateOpt r.discharge_date) =
            specOverlapDays ds de ad (toDateOpt r.discharge_date)) ∧
    (∀ ds de db, patients_active_between ds de db ≠ [] →
        avg_days_treated_in_week ds de db =
          round1 (meanInt ((patients_active_between ds de db).map (fun r =>
            overlap_days ds de (toDateOpt r.admission_date) (toDateOpt r.discharge_date))))) ∧
    overlap_days ⟨2024, 1, 1⟩ ⟨2024, 1, 31⟩ (some ⟨2024, 1, 10⟩) (some ⟨2024, 1, 20⟩) = 11 ∧
    overlap_days ⟨2024, 1, 12⟩ ⟨2024, 1, 18⟩ (some ⟨2024, 1, 10⟩) (some ⟨2024, 1, 20⟩) = 7 ∧
    avg_days_treated_in_week ⟨2024, 1, 1⟩ ⟨2024, 1, 31⟩ [pC2] = 11 := by
  refine ⟨?_, ?_, ?_, by decide, by decide, ?_⟩
  · intro ds de db h
    simp [avg_days_treated_in_week, h]
  · intro ds de db r hr
    have hp := (List.mem_filter.1 hr).2
    cases had : toDateOpt r.admission_date with
    | none => rw [had] at hp; simp at hp
    | some ad =>
      refine ⟨ad, rfl, ?_⟩
      simp [overlap_days, specOverlapDays]
  · intro ds de db h
    simp [avg_days_treated_in_week, h]
  · have h1 : patients_active_between ⟨2024, 1, 1⟩ ⟨2024, 1, 31⟩ [pC2] = [pC2] := by decide
    have h2 : overlap_days ⟨2024, 1, 1⟩ ⟨2024, 1, 31⟩ (toDateOpt pC2.admission_date)
        (toDateOpt pC2.discharge_date) = 11 := by decide
    rw [avg_days_treated_in_week, h1]
    simp only [List.map, h2]
    norm_num [round1, roundHalfEven, meanInt]

/-- C3 witness: the empty-selection clause instantiated on the empty table. -/
theorem C3_witness :
    avg_days_treated_in_week ⟨2024, 2, 1⟩ ⟨2024, 2, 7⟩ [] = 0 := by
  exact C3_avg_overlap_days.1 ⟨2024, 2, 1⟩ ⟨2024, 2, 7⟩ [] (by decide)

/-- A row whose admission date string does not parse as a date. -/
def pBad : PatientRow :=
  { id := 3, medical_id := none, name := "Le C", dob := none, ward := "306",
    bed := "05", admission_date := some "not-a-date", discharge_date := none,
    severity := none, surgery_needed := false, planned_treatment_days := none,
    meds := "", notes := "", active := true, diagnosis := "", operated := false }

/-- C10: a row whose admission date is null or fails to parse is excluded
from `patients_active_between` whatever its discharge date, hence from every
census and from the weekly average, which degenerates to 0 when no row has a
parseable admission date.  Unparseable inputs include short year fields such
as `24-03-15`, which strptime `%Y-%m-%d` rejects. -/
theorem C10_unparseable_admission_excluded :
    (∀ ds de db p, p ∈ db → toDateOpt p.admission_date = none →
        p ∉ patients_active_between ds de db) ∧
    (∀ ds de db, (∀ p ∈ db, toDateOpt p.admission_date = none) →
        patients_active_between ds de db = [] ∧
        avg_days_treated_in_week ds de db = 0) ∧
    toDateOpt none = none ∧
    toDateOpt (some "") = none ∧
    toDateOpt (some "not-a-date") = none ∧
    toDateOpt (some "2024-13-05") = none ∧
    toDateOpt (some "24-03-15") = none ∧
    toDateOpt (some "999-01-01") = none ∧
    toDateOpt (some "5-12-31") = none := by
  refine ⟨?_, ?_, rfl, by decide, by decide, by decide, by decide, by decide, by decide⟩
  · intro ds de db p _ had hmem
    have hp := (List.mem_filter.1 hmem).2
    rw [had] at hp
    simp at hp
  · intro ds de db hall
    have hfil : patients_active_between ds de db = [] := by
      unfold patients_active_between
      rw [List.filter_eq_nil_iff]
      intro p hp
      rw [hall p hp]
      simp
    exact ⟨hfil, by simp [avg_days_treated_in_week, hfil]⟩

/-- C10 witness: the unparseable sample row is excluded from a window that
its null discharge date would otherwise overlap. -/
theorem C10_witness :
    pBad ∉ patients_active_between ⟨2024, 1, 1⟩ ⟨2024, 12, 31⟩ [pBad] := by
  exact C10_unparseable_admission_excluded.1 ⟨2024, 1, 1⟩ ⟨2024, 12, 31⟩ [pBad] pBad
    (by decide) (by decide)

/-- The overdue predicate written as the spec words it: status is not done,
a scheduled date is present, and it is at most today in ISO string order. -/
def overdueSpecB (todayStr : String) (o : OrderRow) : Bool :=
  o.status != "done" && o.scheduled_date.isSome &&
    strLe (o.scheduled_date.getD "") todayStr

/-- Order of the worked example scheduled for today. -/
def oSched : OrderRow :=
  { id := 1, patient_id := 1, order_type := "CT", description := "CT head",
    date_ordered := some "2024-05-09", scheduled_date := some "2024-05-10",
    status := "scheduled", result := none, result_date := none }

/-- Order of the worked example scheduled for tomorrow. -/
def oTomorrow : OrderRow :=
  { id := 2, patient_id := 1, order_type := "CT", description := "CT head",
    date_ordered := some "2024-05-09", scheduled_date := some "2024-05-11",
    status := "scheduled", result := none, result_date := none }

/-- A long-overdue order already marked done. -/
def oDone : OrderRow :=
  { id := 3, patient_id := 1, order_type := "CT", description := "CT head",
    date_ordered := some "2020-01-01", scheduled_date := some "2020-01-01",
    status := "done", result := some "ok", result_date := some "2020-01-02" }

/-- C8: the dashboard overdue count is exactly the number of orders matching
the spec predicate (status not done, scheduled date present and at most today
as ISO strings); an order scheduled today counts, one scheduled tomorrow does
not, and a done order never counts. -/
theorem C8_overdue_count :
    (∀ t orders, scheduled_not_done t orders =
        (orders.filter (overdueSpecB t)).length) ∧
    (∀ t o, overdueSpecB t o = true ↔
        (o.status ≠ "done" ∧ ∃ s, o.scheduled_date = some s ∧ strLe s t = true)) ∧
    scheduled_not_done "2024-05-10" [oSched] = 1 ∧
    scheduled_not_done "2024-05-10" [oTomorrow] = 0 ∧
    scheduled_not_done "2024-05-10" [oDone] = 0 := by
  refine ⟨?_, ?_, by decide, by decide, by decide⟩
  · intro t orders
    unfold scheduled_not_done
    congr 1
    apply List.filter_congr
    intro o _
    cases h : o.scheduled_date <;>
      simp [overdueSpecB, h, Bool.and_assoc]
  · intro t o
    cases h : o.scheduled_date <;> simp [overdueSpecB, h, bne_iff_ne]

/-- Fold with `Nat.max` over a list is bounded by any bound of the list. -/
theorem foldrMax_le {l : List Nat} {b : Nat} (h : ∀ x ∈ l, x ≤ b) :
    l.foldr Nat.max 0 ≤ b := by
  induction l with
  | nil => simp
  | cons a tl ih =>
    simp only [List.foldr_cons]
    exact Nat.max_le.2
      ⟨h a (List.mem_cons_self _ _), ih (fun x hx => h x (List.mem_cons_of_mem _ hx))⟩

/-- Every list member is at most the fold with `Nat.max`. -/
theorem le_foldrMax {l : List Nat} {x : Nat} (h : x ∈ l) :
    x ≤ l.foldr Nat.max 0 := by
  induction l with
  | nil => cases h
  | cons a tl ih =>
    simp only [List.foldr_cons]
    rcases List.mem_cons.1 h with rfl | h2
    · exact Nat.le_max_left _ _
    · exact le_trans (ih h2) (Nat.le_max_right _ _)

/-- The grouped maximum id of a patient is the id of any of its notes that
dominates the whole group. -/
theorem maxIdFor_eq {rounds : List RoundRow} {r : RoundRow} {pid : Nat}
    (hmem : r ∈ rounds) (hpid : r.patient_id = pid)
    (hmax : ∀ w ∈ rounds, w.patient_id = pid → w.id ≤ r.id) :
    maxIdFor rounds pid = r.id := by
  unfold maxIdFor
  apply Nat.le_antisymm
  · apply foldrMax_le
    intro x hx
    rcases List.mem_map.1 hx with ⟨w, hw, rfl⟩
    have hw2 := List.mem_filter.1 hw
    exact hmax w hw2.1 (by simpa using hw2.2)
  · exact le_foldrMax (List.mem_map.2 ⟨r, List.mem_filter.2 ⟨hmem, by simp [hpid]⟩, rfl⟩)

/-- With pairwise-distinct ids, searching the table for the id of a member
finds exactly that member. -/
theorem find_by_id {rounds : List RoundRow} {r : RoundRow}
    (hnd : (rounds.map (fun w => w.id)).Nodup) (hmem : r ∈ rounds) :
    rounds.find? (fun w => w.id == r.id) = some r := by
  induction rounds with
  | nil => cases hmem
  | cons a tl ih =>
    by_cases hid : a.id = r.id
    · have ha : a = r :=
        List.inj_on_of_nodup_map hnd (List.mem_cons_self _ _) hmem hid
      subst ha
      simp
    · have hr : r ∈ tl := by
        rcases List.mem_cons.1 hmem with rfl | h2
        · exact absurd rfl hid
        · exact h2
      rw [List.find?_cons_of_neg _ (by simp [hid])]
      rw [List.map_cons] at hnd
      exact ih (List.Nodup.of_cons hnd) hr

/-- A nonempty list of ward-round rows has a row of maximal id. -/
theorem exists_max_round {l : List RoundRow} (h : l ≠ []) :
    ∃ r ∈ l, ∀ w ∈ l, w.id ≤ r.id := by
  induction l with
  | nil => exact absurd rfl h
  | cons a tl ih =>
    rcases eq_or_ne tl [] with rfl | hne
    · refine ⟨a, List.mem_singleton.2 rfl, ?_⟩
      intro w hw
      rcases List.mem_singleton.1 hw with rfl
      exact le_refl _
    · obtain ⟨r, hr, hrx⟩ := ih hne
      by_cases hc : a.id ≤ r.id
      · refine ⟨r, List.mem_cons_of_mem _ hr, ?_⟩
        intro w hw
        rcases List.mem_cons.1 hw with rfl | hw2
        · exact hc
        · exact hrx w hw2
      · refine ⟨a, List.mem_cons_self _ _, ?_⟩
        intro w hw
        rcases List.mem_cons.1 hw with rfl | hw2
        · exact le_refl _
        · exact le_trans (hrx w hw2) (le_of_not_le hc)

/-- Dict lookup over a `filterMap`-built association list whose producer
emits each key on itself. -/
theorem lookup_filterMap {g : Nat → Option (Nat × String)} {ps : List Nat}
    {pid : Nat} {v : String} (hmem : pid ∈ ps)
    (hkeys : ∀ p ∈ ps, ∀ e, g p = some e → e.1 = p)
    (hg : g pid = some (pid, v)) :
    planLookup (ps.filterMap g) pid = some v := by
  induction ps with
  | nil => cases hmem
  | cons a tl ih =>
    by_cases ha : a = pid
    · subst ha
      rw [List.filterMap_cons_some hg]
      simp [planLookup]
    · have htl : pid ∈ tl := by
        rcases List.mem_cons.1 hmem with rfl | h2
        · exact absurd rfl ha
        · exact h2
      have hkeys2 : ∀ p ∈ tl, ∀ e, g p = some e → e.1 = p :=
        fun p hp => hkeys p (List.mem_cons_of_mem _ hp)
      cases hga : g a with
      | none =>
        rw [List.filterMap_cons_none hga]
        exact ih htl hkeys2
      | some e =>
        have he : e.1 = a := hkeys a (List.mem_cons_self _ _) e hga
        rw [List.filterMap_cons_some hga]
        have hne : (e.1 == pid) = false := by simp [he, ha]
        unfold planLookup
        rw [List.find?_cons_of_neg _ (by simp [hne])]
        exact ih htl hkeys2

/-- Three ward-round notes of patient 7 with increasing ids and out-of-order
visit dates; the highest id carries visit date 2024-01-03 and plan C. -/
def rC6a : RoundRow :=
  { id := 1, patient_id := 7, visit_date := "2024-01-01", general_status := "",
    system_exam := "", plan := "plan A", extra_tests := "",
    extra_tests_note := "", created_at := "2024-01-01 09:00:00" }

/-- Second sample note. -/
def rC6b : RoundRow :=
  { id := 2, patient_id := 7, visit_date := "2024-01-05", general_status := "",
    system_exam := "", plan := "plan B", extra_tests := "",
    extra_tests_note := "", created_at := "2024-01-05 09:00:00" }

/-- Third sample note: the highest id, dated before the second. -/
def rC6c : RoundRow :=
  { id := 3, patient_id := 7, visit_date := "2024-01-03", general_status := "",
    system_exam := "", plan := "plan C", extra_tests := "",
    extra_tests_note := "", created_at := "2024-01-06 09:00:00" }

/-- The three sample notes in insertion order. -/
def roundsC6 : List RoundRow := [rC6a, rC6b, rC6c]

/-- C6: with pairwise-distinct ids (AUTOINCREMENT primary key), the latest
plan map sends a patient to the plan of its note with the maximum id,
regardless of visit dates; on the worked example it returns plan C, carried
by the highest-id note dated 2024-01-03 rather than the chronologically
latest one. -/
theorem C6_latest_plan_per_patient :
    (∀ rounds pid r, (rounds.map (fun w => w.id)).Nodup → r ∈ rounds →
        r.patient_id = pid → (∀ w ∈ rounds, w.patient_id = pid → w.id ≤ r.id) →
        planLookup (latest_plan_map_all_patients rounds) pid = some r.plan) ∧
    planLookup (latest_plan_map_all_patients roundsC6) 7 = some "plan C" := by
  refine ⟨?_, by decide⟩
  intro rounds pid r hnd hmem hpid hmax
  have hmaxid : maxIdFor rounds pid = r.id := maxIdFor_eq hmem hpid hmax
  have hfind : rounds.find? (fun w => w.id == maxIdFor rounds pid) = some r := by
    simp only [hmaxid]
    exact find_by_id hnd hmem
  unfold latest_plan_map_all_patients
  apply lookup_filterMap
  · exact List.mem_dedup.2 (List.mem_map.2 ⟨r, hmem, hpid⟩)
  · intro p hp e hge
    have hp2 : p ∈ rounds.map (fun w => w.patient_id) := List.mem_dedup.1 hp
    rcases List.mem_map.1 hp2 with ⟨w0, hw0, hw0p⟩
    have hgrp : w0 ∈ rounds.filter (fun w => w.patient_id == p) :=
      List.mem_filter.2 ⟨hw0, by simp [hw0p]⟩
    obtain ⟨rm, hrm, hrmax⟩ := exists_max_round (List.ne_nil_of_mem hgrp)
    have hrm2 := List.mem_filter.1 hrm
    have hrm_pid : rm.patient_id = p := by simpa using hrm2.2
    have hrm_max : ∀ w ∈ rounds, w.patient_id = p → w.id ≤ rm.id := by
      intro w hw hwp
      exact hrmax w (List.mem_filter.2 ⟨hw, by simp [hwp]⟩)
    have hmid : maxIdFor rounds p = rm.id := maxIdFor_eq hrm2.1 hrm_pid hrm_max
    rw [hmid] at hge
    rw [find_by_id hnd hrm2.1] at hge
    simp only [Option.map_some'] at hge
    cases hge
    exact hrm_pid
  · rw [hfind]
    simp [hpid]

/-- C6 witness: the general statement applied to the worked three-note
example at the highest-id note. -/
theorem C6_witness :
    planLookup (latest_plan_map_all_patients roundsC6) 7 = some rC6c.plan := by
  exact C6_latest_plan_per_patient.1 roundsC6 7 rC6c (by decide) (by decide)
    (by decide) (by decide)

end WardTracker
